import Mathlib

/-! Verification of the coordinate-conversion diagnostic script
(`examples/pylot/scripts/check_3d_2d_conversions.py`) and of the
coordinate-transform utility it exercises.

Floating-point values are modelled by exact rationals (`ℚ`); statements the
specification phrases "within floating-point tolerance" become exact
equalities of the rational model, except where an explicit tolerance bound
is stated.
-/

/-- A 3D point: a triple of coordinates.  Modelled from the spec:
"a triple of floating-point world coordinates (x, y, z)". -/
@[ext]
structure Vec3 where
  x : ℚ
  y : ℚ
  z : ℚ
deriving DecidableEq

def Vec3.add (a b : Vec3) : Vec3 := ⟨a.x + b.x, a.y + b.y, a.z + b.z⟩

def Vec3.zero : Vec3 := ⟨0, 0, 0⟩

/-- A 3×3 matrix given by its three rows. -/
@[ext]
structure Mat3 where
  r0 : Vec3
  r1 : Vec3
  r2 : Vec3
deriving DecidableEq

def Mat3.mulVec (A : Mat3) (v : Vec3) : Vec3 :=
  ⟨A.r0.x * v.x + A.r0.y * v.y + A.r0.z * v.z,
   A.r1.x * v.x + A.r1.y * v.y + A.r1.z * v.z,
   A.r2.x * v.x + A.r2.y * v.y + A.r2.z * v.z⟩

def Mat3.mul (A B : Mat3) : Mat3 :=
  ⟨⟨A.r0.x * B.r0.x + A.r0.y * B.r1.x + A.r0.z * B.r2.x,
    A.r0.x * B.r0.y + A.r0.y * B.r1.y + A.r0.z * B.r2.y,
    A.r0.x * B.r0.z + A.r0.y * B.r1.z + A.r0.z * B.r2.z⟩,
   ⟨A.r1.x * B.r0.x + A.r1.y * B.r1.x + A.r1.z * B.r2.x,
    A.r1.x * B.r0.y + A.r1.y * B.r1.y + A.r1.z * B.r2.y,
    A.r1.x * B.r0.z + A.r1.y * B.r1.z + A.r1.z * B.r2.z⟩,
   ⟨A.r2.x * B.r0.x + A.r2.y * B.r1.x + A.r2.z * B.r2.x,
    A.r2.x * B.r0.y + A.r2.y * B.r1.y + A.r2.z * B.r2.y,
    A.r2.x * B.r0.z + A.r2.y * B.r1.z + A.r2.z * B.r2.z⟩⟩

def Mat3.id : Mat3 := ⟨⟨1, 0, 0⟩, ⟨0, 1, 0⟩, ⟨0, 0, 1⟩⟩

/-- A rigid transform: a rotation (here, an arbitrary linear part, which
includes every rotation matrix) plus a translation.  Modelled from the spec:
"a rotation (pitch/yaw/roll or equivalent) plus a translation; composed via
matrix multiplication; invertible". -/
@[ext]
structure Transform where
  rot : Mat3
  trans : Vec3
deriving DecidableEq

/-- Application of a transform to a single point. -/
def Transform.apply (T : Transform) (p : Vec3) : Vec3 :=
  (T.rot.mulVec p).add T.trans

/-- Modelled from the spec: `compose(transformA, transformB)` is
"matrix-multiplication composition"; `(T2.compose T1).apply p =
T2.apply (T1.apply p)`. -/
def Transform.compose (T2 T1 : Transform) : Transform :=
  ⟨T2.rot.mul T1.rot, (T2.rot.mulVec T1.trans).add T2.trans⟩

/-- The identity transform. -/
def Transform.id : Transform := ⟨Mat3.id, Vec3.zero⟩

/-- Modelled from the spec: `transform_points(transform, pointCloud)`
"applies a rigid transform to every point". -/
def Transform.transform_points (T : Transform) (pts : List Vec3) : List Vec3 :=
  pts.map T.apply

/-- Camera intrinsics.  Modelled from the spec: "field-of-view, image width,
image height — used to derive a focal length and principal point for inverse
projection".  The source derives the focal length from the tangent of half
the field of view with floating-point trigonometry; in this exact-rational
development that tangent value is carried as the explicit parameter
`tanHalfFov`, standing for tan(fov / 2) in degrees.  For the script's only
field of view, 90 degrees, it equals tan 45 deg = 1. -/
structure CameraIntrinsics where
  width : ℚ
  height : ℚ
  fov : ℚ
  tanHalfFov : ℚ
deriving DecidableEq

/-- Modelled from the spec: the "tan(fov/2)-derived focal length" of the
pinhole model, `width / (2 * tan(fov/2))`. -/
def focalLength (i : CameraIntrinsics) : ℚ :=
  i.width / (2 * i.tanHalfFov)

/-- Modelled from the spec: the inverse pinhole projection into camera-local
coordinates — "normalizes pixel coordinates relative to the principal point,
scales by `depth` and by `tan(fov/2)`-derived focal length".  Camera-local
axes: x to the right, y down, z forward (the depth axis). -/
def pixelToCamera (x y depth : ℚ) (i : CameraIntrinsics) : Vec3 :=
  ⟨(x - i.width / 2) * depth / focalLength i,
   (y - i.height / 2) * depth / focalLength i,
   depth⟩

/-- Modelled from the spec: the fixed axis conversion from camera-local
coordinates (x right, y down, z forward) to the simulator's world axis
convention, under which a camera posed at the world origin facing +x sees
its forward (depth) axis as world +x.  World point = (z, x, -y). -/
def unrealSwap : Transform :=
  ⟨⟨⟨0, 0, 1⟩, ⟨1, 0, 0⟩, ⟨0, -1, 0⟩⟩, Vec3.zero⟩

/-- Modelled from the spec (source symbol `camera_to_unreal_transform`): the
camera-local-to-world transform obtained by composing the camera's pose
transform with the fixed axis conversion. -/
def camera_to_unreal_transform (T : Transform) : Transform :=
  T.compose unrealSwap

/-- The inverse of the fixed axis conversion `unrealSwap`: camera point =
(world y, -world z, world x). -/
def unrealUnswap : Transform :=
  ⟨⟨⟨0, 1, 0⟩, ⟨0, 0, -1⟩, ⟨1, 0, 0⟩⟩, Vec3.zero⟩

/-- Modelled from the spec (source symbol `get_3d_world_position`):
`pixel_to_world(x, y, depth, cameraTransform, intrinsics)` "computes the
inverse pinhole projection — normalizes pixel coordinates relative to the
principal point, scales by `depth` and by `tan(fov/2)`-derived focal length,
then applies `cameraTransform` to map camera-local coordinates into world
space". -/
def pixel_to_world (x y depth : ℚ) (T : Transform) (i : CameraIntrinsics) : Vec3 :=
  (camera_to_unreal_transform T).apply (pixelToCamera x y depth i)

/-- A depth frame: "a 2D array of per-pixel depth values".  `data y x` is the
depth recorded at pixel (x, y); pixels with `x < width` and `y < height` are
the frame's valid pixels. -/
structure DepthFrame where
  width : ℕ
  height : ℕ
  data : ℕ → ℕ → ℚ

/-- All pixel coordinates (x, y) of a frame, enumerated row by row. -/
def pixelList (f : DepthFrame) : List (ℕ × ℕ) :=
  (List.range f.height).flatMap (fun y => (List.range f.width).map (fun x => (x, y)))

/-- The pixels a depth-frame conversion retains: modelled from the spec,
"every pixel whose normalized depth is ≤ `maxDepth`". -/
def retainedPixels (f : DepthFrame) (maxDepth : ℚ) : List (ℕ × ℕ) :=
  (pixelList f).filter (fun p => decide (f.data p.2 p.1 ≤ maxDepth))

/-- Modelled from the spec (source symbol `depth_to_local_point_cloud`):
`depth_frame_to_point_cloud(depthFrame, maxDepth)` "applies the inverse
projection over every pixel whose normalized depth is ≤ `maxDepth`,
producing one point per retained pixel"; the points are in camera-local
coordinates, and the caller maps them to world space with
`camera_to_unreal_transform` and `transform_points`. -/
def depth_frame_to_point_cloud (f : DepthFrame) (i : CameraIntrinsics) (maxDepth : ℚ) :
    List Vec3 :=
  (retainedPixels f maxDepth).map (fun p => pixelToCamera p.1 p.2 (f.data p.2 p.1) i)

/-- Modelled from the spec: valid intrinsics have positive width and height
and a field of view strictly between 0 and 180 degrees. -/
def validIntrinsics (i : CameraIntrinsics) : Prop :=
  0 < i.width ∧ 0 < i.height ∧ 0 < i.fov ∧ i.fov < 180

instance (i : CameraIntrinsics) : Decidable (validIntrinsics i) := by
  unfold validIntrinsics
  infer_instance

/-- The descriptive message of the validation error on bad intrinsics. -/
def invalidIntrinsicsMsg : String :=
  "invalid camera intrinsics: width and height must be positive and the field of view must lie strictly between 0 and 180 degrees"

/-- Modelled from the spec: the conversion "should fail fast with a
descriptive validation error" on invalid intrinsics and is total otherwise. -/
def pixel_to_world_checked (x y depth : ℚ) (T : Transform) (i : CameraIntrinsics) :
    Except String Vec3 :=
  if validIntrinsics i then Except.ok (pixel_to_world x y depth T i)
  else Except.error invalidIntrinsicsMsg

/-- Modelled from the spec: validated variant of the depth-frame conversion,
failing fast with the same descriptive validation error. -/
def depth_frame_to_point_cloud_checked (f : DepthFrame) (i : CameraIntrinsics)
    (maxDepth : ℚ) : Except String (List Vec3) :=
  if validIntrinsics i then Except.ok (depth_frame_to_point_cloud f i maxDepth)
  else Except.error invalidIntrinsicsMsg

/-- The intrinsics the script uses: an 800 x 600 image with a 90-degree
field of view, whose half-angle tangent is tan 45 deg = 1. -/
def scriptIntrinsics : CameraIntrinsics := ⟨800, 600, 90, 1⟩

/-- The diagnostic line `get_world` prints when connecting fails
(source lines 39-40). -/
def connectionDiagnostic (r : String) : String :=
  "Received an error while connecting to the simulator: " ++ r

/-- Embedding of `get_world` (source lines 20-41).  The external simulator
client is abstracted by two oracles: `mk`, the outcome of
`carla.Client(host, port)` together with `set_timeout` (either a client or a
raised `RuntimeError` message), and `gw`, the outcome of
`client.get_world()`.  The body mirrors the `try`/`except RuntimeError`
block: on an error anywhere, both variables are reset to `None` and a
diagnostic line is printed; the result pairs the returned `(client, world)`
with the printed lines. -/
def get_world {C W : Type} (mk : Except String C) (gw : C → Except String W) :
    (Option C × Option W) × List String :=
  match mk with
  | Except.error r => ((none, none), [connectionDiagnostic r])
  | Except.ok c =>
    match gw c with
    | Except.error r => ((none, none), [connectionDiagnostic r])
    | Except.ok w => ((some c, some w), [])

/-- Embedding of `simulation.messages.DepthFrameMessage` as constructed at
source lines 101-105: a depth frame, the camera's transform, the camera's
field of view, and a timestamp (the script passes `None`). -/
structure DepthFrameMessage where
  frame : DepthFrame
  transform : Transform
  fov : ℚ
  timestamp : Option ℚ

/-- Modelled from the spec (source symbol
`get_3d_world_position_with_depth_map`): the world position of a pixel
computed via "a full depth-map lookup" — converting the depth frame and
selecting the pixel's point, then mapping it to world space.  The script's
depth camera is 800 x 600 with a 90-degree field of view
(`scriptIntrinsics`). -/
def get_3d_world_position_with_depth_map (x y : ℕ) (m : DepthFrameMessage) : Vec3 :=
  (camera_to_unreal_transform m.transform).apply
    (pixelToCamera x y (m.frame.data y x) scriptIntrinsics)

/-- Rendering of a point for the printed comparison lines. -/
def posToString (v : Vec3) : String :=
  "(" ++ toString v.x ++ ", " ++ toString v.y ++ ", " ++ toString v.z ++ ")"

/-- Embedding of `equality_test` (source lines 69-85).  The Python function
only reads `depth_msg.frame` and `depth_msg.transform` and prints four
comparison lines; the embedding threads the message through explicitly and
returns it together with the printed lines. -/
def equality_test (x y : ℕ) (depth_msg : DepthFrameMessage) :
    DepthFrameMessage × List String :=
  let d := depth_msg.frame.data y x
  let pos3d := pixel_to_world x y d depth_msg.transform scriptIntrinsics
  let pos3d_no_depth := pixel_to_world x y (1 / 1000) depth_msg.transform scriptIntrinsics
  let pos3d_depth := get_3d_world_position_with_depth_map x y depth_msg
  (depth_msg,
   ["Depth at pixel " ++ toString d,
    "Computed using depth " ++ posToString pos3d,
    "Computed using no depth " ++ posToString pos3d_no_depth,
    "Computed using depth map " ++ posToString pos3d_depth])

/-- The pixel coordinates checked by `check_equality_tests` (source line 90);
pixel (400, 285) is where the car is. -/
def checkedCoords : List (ℕ × ℕ) := [(400, 285), (400, 350), (500, 285), (245, 320)]

/-- Embedding of `check_equality_tests` (source lines 88-93): runs
`equality_test` on each of the four pixels, threading the message and
accumulating the printed lines. -/
def check_equality_tests (depth_msg : DepthFrameMessage) :
    DepthFrameMessage × List String :=
  checkedCoords.foldl
    (fun acc xy =>
      let r := equality_test xy.1 xy.2 acc.1
      (r.1, acc.2 ++ r.2))
    (depth_msg, [])

/-- Applying a composed transform is applying the two transforms in turn:
the defining property of `compose`. -/
theorem Transform.compose_apply (T2 T1 : Transform) (p : Vec3) :
    (T2.compose T1).apply p = T2.apply (T1.apply p) := by
  simp only [Transform.compose, Transform.apply, Mat3.mul, Mat3.mulVec, Vec3.add]
  ext <;> ring

/-- The identity transform fixes every point. -/
theorem Transform.id_apply (p : Vec3) : Transform.id.apply p = p := by
  simp only [Transform.id, Transform.apply, Mat3.id, Mat3.mulVec, Vec3.add, Vec3.zero]
  ext <;> ring

/-- Membership in the pixel enumeration is exactly being a valid pixel of
the frame. -/
theorem mem_pixelList (f : DepthFrame) (x y : ℕ) :
    (x, y) ∈ pixelList f ↔ x < f.width ∧ y < f.height := by
  simp only [pixelList, List.mem_flatMap, List.mem_map, List.mem_range, Prod.mk.injEq]
  constructor
  · rintro ⟨b, hb, a, ha, hax, hby⟩
    exact ⟨hax ▸ ha, hby ▸ hb⟩
  · rintro ⟨hx, hy⟩
    exact ⟨y, hy, x, hx, rfl, rfl⟩

/-- The k-th point of the world-mapped depth point cloud is the world image
of the inverse projection of the k-th retained pixel. -/
theorem transformed_cloud_getElem (f : DepthFrame) (i : CameraIntrinsics)
    (T : Transform) (maxDepth : ℚ) (k x y : ℕ)
    (hk : (retainedPixels f maxDepth)[k]? = some (x, y)) :
    ((camera_to_unreal_transform T).transform_points
        (depth_frame_to_point_cloud f i maxDepth))[k]? =
      some ((camera_to_unreal_transform T).apply
        (pixelToCamera x y (f.data y x) i)) := by
  simp only [Transform.transform_points, depth_frame_to_point_cloud, List.map_map,
    List.getElem?_map, hk]
  rfl

/-- C1: for every retained pixel (x, y) of a depth frame, the world position
computed by `pixel_to_world` from the depth stored at that pixel equals —
exactly, in the rational model — the corresponding point of the cloud
produced by `depth_frame_to_point_cloud` and mapped to world coordinates as
the script does (source lines 110-115). -/
theorem pixel_to_world_matches_point_cloud
    (f : DepthFrame) (i : CameraIntrinsics) (T : Transform) (maxDepth : ℚ)
    (k x y : ℕ) (hk : (retainedPixels f maxDepth)[k]? = some (x, y)) :
    ((camera_to_unreal_transform T).transform_points
        (depth_frame_to_point_cloud f i maxDepth))[k]? =
      some (pixel_to_world x y (f.data y x) T i) :=
  transformed_cloud_getElem f i T maxDepth k x y hk

/-- Witness for C1: a 1 x 1 frame of depth 1/2 converted with the identity
camera pose. -/
theorem pixel_to_world_matches_point_cloud_witness :
    ((camera_to_unreal_transform Transform.id).transform_points
        (depth_frame_to_point_cloud ⟨1, 1, fun _ _ => 1/2⟩ scriptIntrinsics 1))[0]? =
      some (pixel_to_world 0 0 (1/2) Transform.id scriptIntrinsics) :=
  pixel_to_world_matches_point_cloud ⟨1, 1, fun _ _ => 1/2⟩ scriptIntrinsics
    Transform.id 1 0 0 0 (by norm_num [retainedPixels, pixelList, List.filter])

/-- C2: with the script's intrinsics (800 x 600, fov 90 degrees), a depth of
18.0 at pixel (400, 285) and the camera at the world origin facing +x (the
identity pose), `pixel_to_world` returns x = 18 and y = 0 exactly, and z
within 1 of 0 (exactly 27/40, the offset of pixel row 285 from the
principal row 300 scaled by depth over focal length). -/
theorem car_pixel_world_position :
    (pixel_to_world 400 285 18 Transform.id scriptIntrinsics).x = 18 ∧
    (pixel_to_world 400 285 18 Transform.id scriptIntrinsics).y = 0 ∧
    |(pixel_to_world 400 285 18 Transform.id scriptIntrinsics).z| ≤ 1 := by
  norm_num [pixel_to_world, camera_to_unreal_transform, Transform.compose,
    Transform.apply, Transform.id, unrealSwap, Mat3.id, Mat3.mul, Mat3.mulVec,
    Vec3.add, Vec3.zero, pixelToCamera, focalLength, scriptIntrinsics, abs_le]

/-- C3: converting a depth frame with `depth_frame_to_point_cloud`, mapping
the cloud to world coordinates, and then applying any inverse of the
camera-to-world transform recovers, at each retained pixel, exactly the
depth stored in the frame at that pixel. -/
theorem point_cloud_roundtrip_depth
    (f : DepthFrame) (i : CameraIntrinsics) (T U : Transform) (maxDepth : ℚ)
    (hU : U.compose (camera_to_unreal_transform T) = Transform.id)
    (k x y : ℕ) (hk : (retainedPixels f maxDepth)[k]? = some (x, y)) :
    (((camera_to_unreal_transform T).transform_points
        (depth_frame_to_point_cloud f i maxDepth))[k]?).map
        (fun p => (U.apply p).z) =
      some (f.data y x) := by
  rw [transformed_cloud_getElem f i T maxDepth k x y hk]
  show some ((U.apply ((camera_to_unreal_transform T).apply
    (pixelToCamera x y (f.data y x) i))).z) = _
  rw [← Transform.compose_apply, hU, Transform.id_apply]
  rfl

/-- Witness for C3: a 1 x 1 frame of depth 1/2, identity camera pose, with
`unrealUnswap` as the inverse of the camera-to-world transform. -/
theorem point_cloud_roundtrip_depth_witness :
    (((camera_to_unreal_transform Transform.id).transform_points
        (depth_frame_to_point_cloud ⟨1, 1, fun _ _ => 1/2⟩ scriptIntrinsics 1))[0]?).map
        (fun p => (unrealUnswap.apply p).z) =
      some (1/2) :=
  point_cloud_roundtrip_depth ⟨1, 1, fun _ _ => 1/2⟩ scriptIntrinsics
    Transform.id unrealUnswap 1
    (by
      simp only [camera_to_unreal_transform, Transform.compose, Transform.id,
        unrealUnswap, unrealSwap, Mat3.id, Mat3.mul, Mat3.mulVec, Vec3.add, Vec3.zero]
      ext <;> norm_num)
    0 0 0 (by norm_num [retainedPixels, pixelList, List.filter])

/-- C4: at depth 0, `pixel_to_world` returns exactly the translation
component of the camera transform — the camera origin — for every pixel and
valid intrinsics. -/
theorem pixel_to_world_zero_depth (x y : ℚ) (T : Transform) (i : CameraIntrinsics)
    (h : validIntrinsics i) :
    pixel_to_world x y 0 T i = T.trans := by
  simp only [pixel_to_world, camera_to_unreal_transform, Transform.compose,
    Transform.apply, Mat3.mul, Mat3.mulVec, Vec3.add, pixelToCamera, unrealSwap,
    Vec3.zero]
  ext <;> ring

/-- Witness for C4: pixel (0, 0) at depth 0 with the identity camera pose
and the script's intrinsics. -/
theorem pixel_to_world_zero_depth_witness :
    pixel_to_world 0 0 0 Transform.id scriptIntrinsics = Transform.id.trans :=
  pixel_to_world_zero_depth 0 0 Transform.id scriptIntrinsics
    (by norm_num [validIntrinsics, scriptIntrinsics])

/-- C5: `depth_frame_to_point_cloud` retains exactly the valid pixels whose
depth is at most `maxDepth`, applies the inverse pinhole projection to each
retained pixel, and produces exactly one point per retained pixel. -/
theorem depth_frame_to_point_cloud_retains (f : DepthFrame) (i : CameraIntrinsics)
    (maxDepth : ℚ) :
    (∀ x y : ℕ, (x, y) ∈ retainedPixels f maxDepth ↔
        x < f.width ∧ y < f.height ∧ f.data y x ≤ maxDepth) ∧
    depth_frame_to_point_cloud f i maxDepth =
      (retainedPixels f maxDepth).map
        (fun p => pixelToCamera p.1 p.2 (f.data p.2 p.1) i) ∧
    (depth_frame_to_point_cloud f i maxDepth).length =
      (retainedPixels f maxDepth).length := by
  refine ⟨fun x y => ?_, rfl, List.length_map _ _⟩
  rw [retainedPixels, List.mem_filter, mem_pixelList, decide_eq_true_eq, and_assoc]

/-- C6: applying `transform_points` with T1 and then with T2 equals —
exactly, in the rational model — one application with the composed
transform `T2.compose T1`, for all transforms and point clouds. -/
theorem transform_points_compose (T2 T1 : Transform) (pts : List Vec3) :
    T2.transform_points (T1.transform_points pts) =
      (T2.compose T1).transform_points pts := by
  simp only [Transform.transform_points, List.map_map]
  exact List.map_congr_left fun p _ => (Transform.compose_apply T2 T1 p).symm

/-- C7: on intrinsics with non-positive width or height or a field of view
outside (0, 180) degrees, the checked conversions fail fast with the
descriptive validation error, and on valid intrinsics they return the
(total, NaN-free in the rational model) conversion results. -/
theorem conversion_intrinsics_validation (x y depth : ℚ) (T : Transform)
    (f : DepthFrame) (maxDepth : ℚ) (i : CameraIntrinsics) :
    (¬ validIntrinsics i →
      pixel_to_world_checked x y depth T i = Except.error invalidIntrinsicsMsg ∧
      depth_frame_to_point_cloud_checked f i maxDepth =
        Except.error invalidIntrinsicsMsg) ∧
    (validIntrinsics i →
      pixel_to_world_checked x y depth T i =
        Except.ok (pixel_to_world x y depth T i) ∧
      depth_frame_to_point_cloud_checked f i maxDepth =
        Except.ok (depth_frame_to_point_cloud f i maxDepth)) := by
  constructor <;> intro h <;>
    simp [pixel_to_world_checked, depth_frame_to_point_cloud_checked, h]

/-- Witness for C7: fov = 180 degrees is rejected with the validation error;
the script's intrinsics are accepted. -/
theorem conversion_intrinsics_validation_witness :
    (pixel_to_world_checked 0 0 0 Transform.id ⟨800, 600, 180, 0⟩ =
      Except.error invalidIntrinsicsMsg) ∧
    (pixel_to_world_checked 400 285 18 Transform.id scriptIntrinsics =
      Except.ok (pixel_to_world 400 285 18 Transform.id scriptIntrinsics)) :=
  ⟨((conversion_intrinsics_validation 0 0 0 Transform.id ⟨1, 1, fun _ _ => 0⟩ 1
      ⟨800, 600, 180, 0⟩).1 (by norm_num [validIntrinsics])).1,
   ((conversion_intrinsics_validation 400 285 18 Transform.id ⟨1, 1, fun _ _ => 0⟩ 1
      scriptIntrinsics).2 (by norm_num [validIntrinsics, scriptIntrinsics])).1⟩

/-- C8: when connecting to the simulator raises a `RuntimeError` — at client
creation or when getting the world — `get_world` catches it, prints the
diagnostic line, and returns the no-op handle `(None, None)` instead of
propagating the exception. -/
theorem get_world_error_handling {C W : Type} (mk : Except String C)
    (gw : C → Except String W) (r : String)
    (h : mk = Except.error r ∨ ∃ c, mk = Except.ok c ∧ gw c = Except.error r) :
    get_world mk gw = ((none, none), [connectionDiagnostic r]) := by
  rcases h with h | ⟨c, hc, hg⟩
  · rw [h]; rfl
  · simp only [get_world, hc, hg]

/-- Witness for C8: a connection refused at client creation. -/
theorem get_world_error_handling_witness :
    get_world (Except.error "connection refused" : Except String Unit)
      (fun _ => (Except.ok () : Except String Unit)) =
      ((none, none), [connectionDiagnostic "connection refused"]) :=
  get_world_error_handling _ _ _ (Or.inl rfl)

/-- C9: `get_world` always returns either `(None, None)` or a pair with
both the client and the world set — never a mixed pair. -/
theorem get_world_client_world_consistent {C W : Type} (mk : Except String C)
    (gw : C → Except String W) :
    (get_world mk gw).1 = (none, none) ∨
    ∃ c w, (get_world mk gw).1 = (some c, some w) := by
  cases mk with
  | error r => left; rfl
  | ok c =>
    cases hg : gw c with
    | error r => left; simp [get_world, hg]
    | ok w => right; exact ⟨c, w, by simp [get_world, hg]⟩

/-- C10: `equality_test` and `check_equality_tests` return the depth message
they were given unchanged — they only read its frame and transform and
produce printed lines. -/
theorem equality_test_preserves_msg (x y : ℕ) (depth_msg : DepthFrameMessage) :
    (equality_test x y depth_msg).1 = depth_msg ∧
    (check_equality_tests depth_msg).1 = depth_msg :=
  ⟨rfl, rfl⟩
